import Mathlib

/-! UsefulSamples: call-sequence models of the five sample programs

Each sample program (`dr_mp3`, `dr_wav`, `stb_image`, `stb_truetype`, `stb_vorbis`) is a
single `main` that calls a third-party decoding library in a fixed order, with a few
early returns.  The libraries themselves are external: every value a library call hands
back is a field of an environment record (`Env`), and `main` is a function from that
record to the list of calls it makes, in order, together with its exit code.

Calls are recorded with the arguments written in the source.  A pointer-valued variable
passed by value is `Arg.var`, the address of a variable is `Arg.addr`, and scalar
arguments are recorded by value.
-/

/-- The identifiers the five `main` functions declare or mention. -/
inductive Var
  | mp3 | wav | vorbis | info
  | s32_samples_buffer | samples_buffer | samples
  | frames_read | mp3_config | total_frames | channels | sample_rate
  | width | height | pixels | err
  | hdr_width | hdr_height | hdr_channels | hdr_pixels | is_hdr
  | error_code | vorbis_info | ret | frames
  | font_data | num_fonts | offset | scale_factor
  | ascent | descent | line_gap | glyph_index
  | offset_x | offset_y | glyph_bitmap
  | left | top | right | bottom
  | buff_width | buff_height | buff_size | out_bitmap
  | advance | left_side_bearing | next_glyph_index | kern
  | kern_table_length | kern_table
  deriving DecidableEq, Repr

/-- The external functions the five `main` functions call. -/
inductive Fn
  | printf | malloc | free
  | drmp3_init_file | drmp3_read_pcm_frames_s32 | drmp3_uninit
  | drmp3_open_file_and_read_pcm_frames_f32 | drmp3_free
  | drwav_init_file | drwav_read_pcm_frames_s32 | drwav_uninit
  | drwav_open_file_and_read_pcm_frames_f32 | drwav_free
  | stbi_load | stbi_failure_reason | stbi_info
  | stbi_hdr_to_ldr_gamma | stbi_hdr_to_ldr_scale
  | stbi_ldr_to_hdr_scale | stbi_ldr_to_hdr_gamma
  | stbi_loadf | stbi_is_hdr | stbi_image_free
  | stb_vorbis_open_filename | stb_vorbis_get_info
  | stb_vorbis_seek_start | stb_vorbis_seek_frame | stb_vorbis_seek
  | stb_vorbis_decode_filename | stb_vorbis_close
  | read_file_in_bytes
  | stbtt_GetNumberOfFonts | stbtt_GetFontOffsetForIndex | stbtt_InitFont
  | stbtt_ScaleForPixelHeight | stbtt_GetFontVMetrics | stbtt_FindGlyphIndex
  | stbtt_GetGlyphBitmap | stbtt_GetGlyphBitmapBox | stbtt_MakeGlyphBitmap
  | stbtt_GetGlyphHMetrics | stbtt_GetGlyphKernAdvance
  | stbtt_GetKerningTableLength | stbtt_GetKerningTable | stbtt_FreeBitmap
  deriving DecidableEq, Repr

/-- An argument as written at a call site. -/
inductive Arg
  | var (v : Var)
  | addr (v : Var)
  | nat (n : Nat)
  | int (i : Int)
  | rat (q : ℚ)
  | str (s : String)
  | null
  deriving DecidableEq

/-- The value a call handed back.  A pointer is recorded by whether it is non-null. -/
inductive Ret
  | void
  | nat (n : Nat)
  | int (i : Int)
  | rat (q : ℚ)
  | str (s : String)
  | ptr (nonnull : Bool)
  deriving DecidableEq

/-- One call: the function, its arguments, what it returned, and the variable the
source stores the returned value in (if any). -/
structure Call where
  fn : Fn
  args : List Arg
  ret : Ret
  dst : Option Var

/-- What running a `main` produces: the calls it made, in order, and its exit code. -/
structure Run where
  trace : List Call
  exit : Int

/-- Whether an argument is the variable `v`, by value or by address. -/
def Arg.refers : Arg → Var → Bool
  | .var w, v => decide (w = v)
  | .addr w, v => decide (w = v)
  | _, _ => false

/-- Whether a call takes the variable `v` among its arguments. -/
def Call.mentions (c : Call) (v : Var) : Bool :=
  c.args.any (fun a => a.refers v)

/-- A `printf` of a format string and its arguments. -/
def printf (fmt : String) (args : List Arg) : Call :=
  ⟨.printf, .str fmt :: args, .void, none⟩

/-- The value of `sizeof(size_t) * 8` on the LP64 targets the samples are written for. -/
def SIZE_BITS : Nat := 64

/-- Multiplication of two unsigned 64-bit values. -/
def mul64 (a b : Nat) : Nat := (a * b) % 2 ^ SIZE_BITS

/-- Reduction of a C `int` expression to the 32-bit two's complement range. -/
def wrap32 (i : Int) : Int := (i + 2 ^ 31) % 2 ^ 32 - 2 ^ 31

/-- Conversion of a C `int` to `size_t`. -/
def toSize (i : Int) : Nat := (i % 2 ^ SIZE_BITS).toNat

/-- Conversion of a real value to `int`: truncation toward zero. -/
def truncToInt (q : ℚ) : Int := Int.tdiv q.num q.den

/-- The statement `i *= s` for an `int` variable `i` and a real `s`: the product `i * s`,
which is the fraction `(i * s.num) / s.den`, truncated toward zero. -/
def mulAssignReal (i : Int) (s : ℚ) : Int := Int.tdiv (i * s.num) s.den

namespace dr_mp3

/-- What the dr_mp3 library hands back to `main`. -/
structure Env where
  /-- result of `drmp3_init_file` (a `drmp3_bool32`) -/
  init_file : Nat
  /-- `mp3.totalPCMFrameCount` (a `drmp3_uint64`) -/
  totalPCMFrameCount : Nat
  /-- `mp3.channels` (a `drmp3_uint32`) -/
  channels : Nat
  /-- whether `malloc` returned a non-null pointer -/
  malloc_ok : Bool
  /-- result of `drmp3_read_pcm_frames_s32` -/
  frames_read : Nat
  /-- whether `drmp3_open_file_and_read_pcm_frames_f32` returned a non-null pointer -/
  samples : Bool

/-- `main` of `dr_mp3/main.cpp`; `sizeof_int` is the platform's `sizeof(int)`. -/
def main (sizeof_int : Nat) (env : Env) : Run :=
  let t : List Call :=
    [⟨.drmp3_init_file, [.addr .mp3, .str "path/to/audio.mp3", .null], .nat env.init_file, none⟩]
  if env.init_file = 0 then
    ⟨t ++ [printf "ERROR: Could not load MP3 file!\n" []], -1⟩
  else
    let bytes := mul64 (mul64 env.totalPCMFrameCount env.channels) sizeof_int
    let t := t ++
      [⟨.malloc, [.nat bytes], .ptr env.malloc_ok, some .s32_samples_buffer⟩,
       ⟨.drmp3_read_pcm_frames_s32,
         [.addr .mp3, .nat env.totalPCMFrameCount, .var .samples_buffer],
         .nat env.frames_read, some .frames_read⟩,
       ⟨.free, [.var .s32_samples_buffer], .void, none⟩,
       ⟨.drmp3_uninit, [.addr .mp3], .void, none⟩,
       ⟨.drmp3_open_file_and_read_pcm_frames_f32,
         [.str "path/to/audio.mp3", .addr .mp3_config, .addr .total_frames, .null],
         .ptr env.samples, some .samples⟩]
    if env.samples = false then
      ⟨t ++ [printf "ERROR: Could not load MP3 file!\n" []], -1⟩
    else
      ⟨t ++ [⟨.drmp3_free, [.var .samples], .void, none⟩], 0⟩

end dr_mp3

namespace dr_wav

/-- What the dr_wav library hands back to `main`. -/
structure Env where
  /-- result of `drwav_init_file` (a `drwav_bool32`) -/
  init_file : Nat
  /-- `wav.totalPCMFrameCount` (a `drwav_uint64`) -/
  totalPCMFrameCount : Nat
  /-- `wav.channels` (a `drwav_uint16`) -/
  channels : Nat
  /-- whether `malloc` returned a non-null pointer -/
  malloc_ok : Bool
  /-- result of `drwav_read_pcm_frames_s32` -/
  frames_read : Nat
  /-- whether `drwav_open_file_and_read_pcm_frames_f32` returned a non-null pointer -/
  samples : Bool

/-- `main` of `dr_wav/main.cpp`; `sizeof_int` is the platform's `sizeof(int)`. -/
def main (sizeof_int : Nat) (env : Env) : Run :=
  let t : List Call :=
    [⟨.drwav_init_file, [.addr .wav, .str "path/to/audio.wav", .null], .nat env.init_file, none⟩]
  if env.init_file = 0 then
    ⟨t ++ [printf "ERROR: Could not load WAV file!\n" []], -1⟩
  else
    let bytes := mul64 (mul64 env.totalPCMFrameCount env.channels) sizeof_int
    let t := t ++
      [⟨.malloc, [.nat bytes], .ptr env.malloc_ok, some .s32_samples_buffer⟩,
       ⟨.drwav_read_pcm_frames_s32,
         [.addr .wav, .nat env.totalPCMFrameCount, .var .samples_buffer],
         .nat env.frames_read, some .frames_read⟩,
       ⟨.free, [.var .s32_samples_buffer], .void, none⟩,
       ⟨.drwav_uninit, [.addr .wav], .void, none⟩,
       ⟨.drwav_open_file_and_read_pcm_frames_f32,
         [.str "path/to/audio.wav", .addr .channels, .addr .sample_rate, .addr .total_frames,
          .null],
         .ptr env.samples, some .samples⟩]
    if env.samples = false then
      ⟨t ++ [printf "ERROR: Could not load WAV file!\n" []], -1⟩
    else
      ⟨t ++ [⟨.drwav_free, [.var .samples], .void, none⟩], 0⟩

end dr_wav

namespace stb_image

/-- What the stb_image library hands back to `main`. -/
structure Env where
  /-- whether `stbi_load` returned a non-null pointer -/
  pixels : Bool
  /-- what `stbi_failure_reason` returns after a failed `stbi_load` -/
  load_reason : String
  /-- result of `stbi_info` -/
  err : Int
  /-- whether `stbi_loadf` returned a non-null pointer -/
  hdr_pixels : Bool
  /-- what `stbi_failure_reason` returns after a failed `stbi_loadf` -/
  loadf_reason : String
  /-- result of `stbi_is_hdr` -/
  is_hdr : Int

/-- `main` of `stb_image/main.cpp`.  The literal `2.2f` is recorded as `11/5`. -/
def main (env : Env) : Run :=
  let t : List Call :=
    [⟨.stbi_load,
       [.str "path/to/texture.png", .addr .width, .addr .height, .addr .channels, .int 4],
       .ptr env.pixels, some .pixels⟩]
  if env.pixels = false then
    ⟨t ++ [⟨.stbi_failure_reason, [], .str env.load_reason, none⟩,
           printf "Failed to load image. REASON: %s\n" [.str env.load_reason]], -1⟩
  else
    let t := t ++
      [⟨.stbi_info, [.str "path/to/texture.png", .addr .width, .addr .height, .addr .channels],
         .int env.err, some .err⟩]
    if env.err ≠ 1 then
      ⟨t ++ [printf "Error with stbi_info\n" []], -1⟩
    else
      let t := t ++
        [⟨.stbi_hdr_to_ldr_gamma, [.rat (mkRat 11 5)], .void, none⟩,
         ⟨.stbi_hdr_to_ldr_scale, [.rat 1], .void, none⟩,
         ⟨.stbi_ldr_to_hdr_scale, [.rat 1], .void, none⟩,
         ⟨.stbi_ldr_to_hdr_gamma, [.rat (mkRat 11 5)], .void, none⟩,
         ⟨.stbi_loadf,
           [.str "path/to/hdr_texture.hdr", .addr .hdr_width, .addr .hdr_height,
            .addr .hdr_channels, .int 0],
           .ptr env.hdr_pixels, some .hdr_pixels⟩]
      if env.hdr_pixels = false then
        ⟨t ++ [⟨.stbi_failure_reason, [], .str env.loadf_reason, none⟩,
               printf "Failed to load HDR image. REASON: %s\n" [.str env.loadf_reason]], -1⟩
      else
        let t := t ++
          [⟨.stbi_is_hdr, [.str "path/to/hdr_texture.hdr"], .int env.is_hdr, some .is_hdr⟩]
        let t := if env.is_hdr = 1 then t ++ [printf "HDR yay!\n" []] else t
        ⟨t ++ [⟨.stbi_image_free, [.var .pixels], .void, none⟩,
               ⟨.stbi_image_free, [.var .hdr_pixels], .void, none⟩], 0⟩

end stb_image

namespace stb_vorbis

/-- What the stb_vorbis library hands back to `main`. -/
structure Env where
  /-- whether `stb_vorbis_open_filename` returned a non-null pointer -/
  vorbis : Bool
  /-- the value of `error_code` after `stb_vorbis_open_filename` -/
  error_code : Int
  /-- result of `stb_vorbis_seek_start` -/
  seek_start : Int
  /-- result of `stb_vorbis_seek_frame` -/
  seek_frame : Int
  /-- result of `stb_vorbis_seek` -/
  seek : Int
  /-- result of `stb_vorbis_decode_filename` -/
  frames : Int

/-- `main` of `stb_vorbis/main.cpp`. -/
def main (env : Env) : Run :=
  let t : List Call :=
    [⟨.stb_vorbis_open_filename, [.str "path/to/audio.ogg", .addr .error_code, .null],
       .ptr env.vorbis, some .vorbis⟩]
  if env.vorbis = false then
    ⟨t ++ [printf "Failed to load OGG file! %i\n" [.int env.error_code]], -1⟩
  else
    let t := t ++
      [⟨.stb_vorbis_get_info, [.var .vorbis], .void, some .vorbis_info⟩,
       ⟨.stb_vorbis_seek_start, [.var .vorbis], .int env.seek_start, some .ret⟩]
    if env.seek_start ≠ 1 then
      ⟨t ++ [printf "Cannot seek there for some reason...\n" []], -1⟩
    else
      let t := t ++
        [⟨.stb_vorbis_seek_frame, [.var .vorbis, .int 420], .int env.seek_frame, none⟩,
         ⟨.stb_vorbis_seek, [.var .vorbis, .int 69], .int env.seek, none⟩,
         ⟨.stb_vorbis_decode_filename,
           [.str "path/to/audio.ogg", .addr .channels, .addr .sample_rate, .addr .samples],
           .int env.frames, some .frames⟩]
      if env.frames = -1 then
        ⟨t ++ [printf "Failed to load OGG file!\n" []], -1⟩
      else
        ⟨t ++ [⟨.free, [.var .samples], .void, none⟩,
               ⟨.stb_vorbis_close, [.var .vorbis], .void, none⟩], 0⟩

end stb_vorbis

namespace stb_truetype

/-- What `read_file_in_bytes` and the stb_truetype library hand back to `main`.  The
`float` scale factor is taken as an exact rational. -/
structure Env where
  /-- whether `read_file_in_bytes` returned a non-null pointer -/
  font_data : Bool
  /-- result of `stbtt_GetNumberOfFonts` -/
  num_fonts : Int
  /-- result of `stbtt_GetFontOffsetForIndex` -/
  offset : Int
  /-- result of `stbtt_InitFont` -/
  init_font : Int
  /-- result of `stbtt_ScaleForPixelHeight` -/
  scale_factor : ℚ
  /-- the three values `stbtt_GetFontVMetrics` writes -/
  ascent : Int
  descent : Int
  line_gap : Int
  /-- result of `stbtt_FindGlyphIndex` for the codepoint of the letter A -/
  glyph_index : Int
  /-- whether `stbtt_GetGlyphBitmap` returned a non-null pointer -/
  glyph_bitmap : Bool
  /-- the four values `stbtt_GetGlyphBitmapBox` writes -/
  left : Int
  top : Int
  right : Int
  bottom : Int
  /-- whether the `malloc` of `out_bitmap` returned a non-null pointer -/
  out_bitmap : Bool
  /-- the two values `stbtt_GetGlyphHMetrics` writes -/
  advance : Int
  left_side_bearing : Int
  /-- result of `stbtt_FindGlyphIndex` for the codepoint of the letter s -/
  next_glyph_index : Int
  /-- result of `stbtt_GetGlyphKernAdvance` (discarded by the source) -/
  kern_advance : Int
  /-- the value of the identifier `kern`, which the source never declares or assigns -/
  kern : Int
  /-- result of `stbtt_GetKerningTableLength` -/
  kern_table_length : Int
  /-- whether the `malloc` of `kern_table` returned a non-null pointer -/
  kern_table : Bool

/-- The values of the local `int` variables of `main` once it has run to its end. -/
structure Locals where
  ascent : Int
  descent : Int
  line_gap : Int
  buff_width : Int
  buff_height : Int
  buff_size : Int
  advance : Int
  left_side_bearing : Int
  kern : Int

/-- The assignments to local variables in `stb_truetype/main.cpp`, lines 105-107,
216-218, 258-259 and 281. -/
def locals (env : Env) : Locals :=
  let buff_width := wrap32 (env.right - env.left)
  let buff_height := wrap32 (env.bottom - env.top)
  { ascent := mulAssignReal env.ascent env.scale_factor
    descent := mulAssignReal env.descent env.scale_factor
    line_gap := mulAssignReal env.line_gap env.scale_factor
    buff_width := buff_width
    buff_height := buff_height
    buff_size := wrap32 (buff_width * buff_height)
    advance := wrap32 (env.advance * truncToInt env.scale_factor)
    left_side_bearing := wrap32 (env.left_side_bearing * truncToInt env.scale_factor)
    kern := wrap32 (env.kern * truncToInt env.scale_factor) }

/-- `main` of `stb_truetype/main.cpp`; `sizeof_kerningentry` is
`sizeof(stbtt_kerningentry)`.  The character literals are recorded by their codes. -/
def main (sizeof_kerningentry : Nat) (env : Env) : Run :=
  let t : List Call :=
    [⟨.read_file_in_bytes, [.str "path/to/font.ttf"], .ptr env.font_data, some .font_data⟩,
     ⟨.stbtt_GetNumberOfFonts, [.var .font_data], .int env.num_fonts, some .num_fonts⟩,
     ⟨.stbtt_GetFontOffsetForIndex, [.var .font_data, .int 0], .int env.offset, some .offset⟩,
     ⟨.stbtt_InitFont, [.addr .info, .var .font_data, .int env.offset], .int env.init_font,
       none⟩]
  if env.init_font = 0 then
    ⟨t ++ [printf "ERROR: Could not initialize STB truetype library!\n" []], -1⟩
  else
    let s := env.scale_factor
    let l := locals env
    ⟨t ++
      [⟨.stbtt_ScaleForPixelHeight, [.var .info, .rat 256], .rat s, some .scale_factor⟩,
       ⟨.stbtt_GetFontVMetrics, [.var .info, .addr .ascent, .addr .descent, .addr .line_gap],
         .void, none⟩,
       ⟨.stbtt_FindGlyphIndex, [.var .info, .int 65], .int env.glyph_index,
         some .glyph_index⟩,
       ⟨.stbtt_GetGlyphBitmap,
         [.var .info, .rat 0, .rat s, .int env.glyph_index, .addr .width, .addr .height,
          .addr .offset_x, .addr .offset_y],
         .ptr env.glyph_bitmap, some .glyph_bitmap⟩,
       ⟨.stbtt_GetGlyphBitmapBox,
         [.var .info, .int env.glyph_index, .rat 0, .rat s, .addr .left, .addr .top,
          .addr .right, .addr .bottom],
         .void, none⟩,
       ⟨.malloc, [.nat (toSize l.buff_size)], .ptr env.out_bitmap, some .out_bitmap⟩,
       ⟨.stbtt_MakeGlyphBitmap,
         [.var .info, .var .out_bitmap, .int l.buff_width, .int l.buff_height,
          .int l.buff_height, .rat s, .rat s, .int env.glyph_index],
         .void, none⟩,
       ⟨.stbtt_GetGlyphHMetrics,
         [.var .info, .int env.glyph_index, .addr .advance, .addr .left_side_bearing],
         .void, none⟩,
       ⟨.stbtt_FindGlyphIndex, [.var .info, .int 115], .int env.next_glyph_index,
         some .next_glyph_index⟩,
       ⟨.stbtt_GetGlyphKernAdvance,
         [.var .info, .int env.glyph_index, .int env.next_glyph_index],
         .int env.kern_advance, none⟩,
       ⟨.stbtt_GetKerningTableLength, [.var .info], .int env.kern_table_length,
         some .kern_table_length⟩,
       ⟨.malloc, [.nat (mul64 sizeof_kerningentry (toSize env.kern_table_length))],
         .ptr env.kern_table, some .kern_table⟩,
       ⟨.stbtt_GetKerningTable, [.var .info, .var .kern_table], .void, none⟩,
       ⟨.stbtt_FreeBitmap, [.var .glyph_bitmap, .null], .void, none⟩], 0⟩

end stb_truetype

/-! ## Properties of call sequences -/

/-- The functions that give a buffer back: the libraries' release functions and the
generic `free`. -/
def Fn.isRelease : Fn → Bool
  | .free | .drmp3_free | .drwav_free | .stbi_image_free | .stbtt_FreeBitmap => true
  | _ => false

/-- Whether a call releases the buffer held in `v`. -/
def Call.releases (c : Call) (v : Var) : Bool :=
  c.fn.isRelease && c.mentions v

/-- How many calls of a trace release the buffer held in `v`. -/
def releaseCount (v : Var) (t : List Call) : Nat :=
  (t.filter (fun c => c.releases v)).length

/-- Whether some call takes `v` after a call that released it. -/
def usedAfterRelease (v : Var) : List Call → Bool
  | [] => false
  | c :: rest =>
    if c.releases v then rest.any (fun d => d.mentions v) else usedAfterRelease v rest

/-- The variable a call stores a library-allocated buffer in: the destination of the
returned pointer for the one-shot decoders, the image loaders and `stbtt_GetGlyphBitmap`,
and the last (output) argument of `stb_vorbis_decode_filename`. -/
def Call.allocates (c : Call) : Option Var :=
  match c.fn with
  | .drmp3_open_file_and_read_pcm_frames_f32 => c.dst
  | .drwav_open_file_and_read_pcm_frames_f32 => c.dst
  | .stbi_load => c.dst
  | .stbi_loadf => c.dst
  | .stbtt_GetGlyphBitmap => c.dst
  | .stb_vorbis_decode_filename =>
    match c.args.getLast? with
    | some (.addr v) => some v
    | _ => none
  | _ => none

/-- The variables that hold library-allocated buffers, in order of allocation. -/
def libraryBuffers (t : List Call) : List Var :=
  t.filterMap Call.allocates

/-- The release function a library provides for the buffers of one of its allocating
functions, as far as the samples show one. -/
def libraryRelease : Fn → Option Fn
  | .drmp3_open_file_and_read_pcm_frames_f32 => some .drmp3_free
  | .drwav_open_file_and_read_pcm_frames_f32 => some .drwav_free
  | .stbi_load => some .stbi_image_free
  | .stbi_loadf => some .stbi_image_free
  | .stbtt_GetGlyphBitmap => some .stbtt_FreeBitmap
  | _ => none

/-- Every call of the trace that releases a library-allocated buffer is a call of the
allocating library's own release function, and none is a call of `free`. -/
def releasedByOwnLibrary (t : List Call) : Bool :=
  t.all fun a =>
    match a.allocates with
    | none => true
    | some v =>
      t.all fun r =>
        !(r.releases v) || (r.fn != .free && libraryRelease a.fn == some r.fn)

/-- The C truth value of a returned value. -/
def Ret.truthy : Ret → Bool
  | .nat n => n != 0
  | .int i => i != 0
  | .ptr b => b
  | _ => false

/-- Where a decode session stands. -/
inductive HState
  | unopened | opened | closed
  deriving DecidableEq, Repr

/-- One step of the life cycle of the session held in `h`: the open call is allowed
only on an unopened session and opens it when it reports success; any other call that
takes `h` is allowed only on an opened session, and the close call closes it.  `none`
is a use before a successful open or after the close. -/
def handleStep (openFn closeFn : Fn) (h : Var) (s : HState) (c : Call) : Option HState :=
  if c.fn = openFn then
    match s with
    | .unopened => some (if c.ret.truthy then .opened else .unopened)
    | _ => none
  else if c.mentions h then
    match s with
    | .opened => some (if c.fn = closeFn then .closed else .opened)
    | _ => none
  else some s

/-- The life cycle run over a whole trace. -/
def handleRun (openFn closeFn : Fn) (h : Var) : HState → List Call → Option HState
  | s, [] => some s
  | s, c :: rest =>
    match handleStep openFn closeFn h s c with
    | none => none
    | some s2 => handleRun openFn closeFn h s2 rest

/-- How many calls of a trace close the session held in `h`. -/
def closeCount (closeFn : Fn) (h : Var) (t : List Call) : Nat :=
  (t.filter (fun c => decide (c.fn = closeFn) && c.mentions h)).length

/-- The three seek functions of stb_vorbis. -/
def Fn.isSeek : Fn → Bool
  | .stb_vorbis_seek_start | .stb_vorbis_seek_frame | .stb_vorbis_seek => true
  | _ => false

/-- Every seek call of the run that returned 0 is the last call before the diagnostic,
and the run exits with -1. -/
def SeekFailureStops (r : Run) : Prop :=
  ∀ pre c post, r.trace = pre ++ c :: post → c.fn.isSeek = true → c.ret = .int 0 →
    r.exit = -1 ∧ ∀ d ∈ post, d.fn = .printf

/-- The trace ends with a call of `stbi_failure_reason` and a `printf` whose format has
a `%s` that is given the string that call returned. -/
def PrintsFailureReason (t : List Call) : Prop :=
  ∃ pre r fmt, t = pre ++ [⟨.stbi_failure_reason, [], .str r, none⟩, printf fmt [.str r]] ∧
    "%s".data <:+: fmt.data

/-- The functions of the calls that release the buffer held in `v`, in order. -/
def releasers (v : Var) (t : List Call) : List Fn :=
  (t.filter (fun c => c.releases v)).map (·.fn)

/-- The function and arguments of every call of a trace, without the returned values. -/
def shape (t : List Call) : List (Fn × List Arg) :=
  t.map fun c => (c.fn, c.args)

/-- The arguments of the first call of `f` in a trace. -/
def argsOf (f : Fn) (t : List Call) : Option (List Arg) :=
  (t.find? (fun c => decide (c.fn = f))).map (·.args)

/-- The number of bytes asked of the `malloc` whose result is stored in `v`. -/
def mallocBytes (v : Var) (t : List Call) : Option Nat :=
  match t.find? (fun c => decide (c.fn = .malloc) && decide (c.dst = some v)) with
  | some c =>
    match c.args with
    | [Arg.nat n] => some n
    | _ => none
  | none => none

/-- The width, height and stride a trace passes to `stbtt_MakeGlyphBitmap`. -/
def makeBitmapRequest (t : List Call) : Option (Int × Int × Int) :=
  match argsOf .stbtt_MakeGlyphBitmap t with
  | some [_, _, .int w, .int h, .int stride, _, _, _] => some (w, h, stride)
  | _ => none

/-- The byte offsets a request of `width` columns, `height` rows and row spacing
`stride` asks to have written: `y * stride + x` for every row `y` and column `x`. -/
def writeOffsets (width height stride : Int) : List Int :=
  (List.range height.toNat).flatMap fun y =>
    (List.range width.toNat).map fun x => (y : Int) * stride + (x : Int)

/-- Every byte the trace asks `stbtt_MakeGlyphBitmap` to write lies inside the bytes it
allocated for `out_bitmap`. -/
def writesInBounds (t : List Call) : Bool :=
  match makeBitmapRequest t, mallocBytes .out_bitmap t with
  | some (w, h, stride), some n =>
    (writeOffsets w h stride).all fun o => decide (0 ≤ o) && decide (o < (n : Int))
  | _, _ => false

/-- The pair of scale factors a trace passes to `stbtt_GetGlyphBitmapBox`. -/
def boxScale (t : List Call) : Option (ℚ × ℚ) :=
  match argsOf .stbtt_GetGlyphBitmapBox t with
  | some [_, _, .rat sx, .rat sy, _, _, _, _] => some (sx, sy)
  | _ => none

/-- The pair of scale factors a trace passes to `stbtt_MakeGlyphBitmap`. -/
def makeScale (t : List Call) : Option (ℚ × ℚ) :=
  match argsOf .stbtt_MakeGlyphBitmap t with
  | some [_, _, _, _, _, .rat sx, .rat sy, _] => some (sx, sy)
  | _ => none

/-- The variables that hold buffers the program allocates or loads itself: the
destinations of `malloc` and of `read_file_in_bytes`, in order. -/
def ownBuffers (t : List Call) : List Var :=
  t.filterMap fun c =>
    if c.fn = .malloc ∨ c.fn = .read_file_in_bytes then c.dst else none

/-- The calls of a trace that create a glyph bitmap. -/
def rasterCalls (t : List Call) : List Call :=
  t.filter fun c => decide (c.fn = .stbtt_GetGlyphBitmap) || decide (c.fn = .stbtt_MakeGlyphBitmap)

/-- A metric brought into scaled coordinates: its product with the scale factor,
truncated toward zero. -/
def scaledMetric (a : Int) (s : ℚ) : Int := truncToInt (a * s)

/-- The reading of the decode result under which every negative return value is a
failure: `main` then exits with -1 and makes no release call for `samples`. -/
def stb_vorbis.NegativeFramesRejected (env : stb_vorbis.Env) : Prop :=
  env.frames < 0 →
    (stb_vorbis.main env).exit = -1 ∧ releaseCount .samples (stb_vorbis.main env).trace = 0

/-! ## Sample inputs -/

/-- A 1-second stereo 44100 Hz MP3 file on which every dr_mp3 call succeeds. -/
def dr_mp3.fixture : dr_mp3.Env := ⟨1, 44100, 2, true, 44100, true⟩

/-- A 1-second stereo 44100 Hz WAV file on which every dr_wav call succeeds. -/
def dr_wav.fixture : dr_wav.Env := ⟨1, 44100, 2, true, 44100, true⟩

/-- An image pair on which every stb_image call succeeds. -/
def stb_image.fixture : stb_image.Env := ⟨true, "", 1, true, "", 1⟩

/-- A font on which every stb_truetype call succeeds, with a scale factor of 8/75. -/
def stb_truetype.fixture : stb_truetype.Env :=
  ⟨true, 1, 0, 1, mkRat 256 2400, 1900, -500, 0, 36, true, 0, -150, 140, 0, true, 1300, 20,
   86, -10, 0, 3, true⟩

/-- An Ogg file on which every stb_vorbis call succeeds. -/
def stb_vorbis.fixture : stb_vorbis.Env := ⟨true, 0, 1, 1, 1, 44100⟩

/-- The font of `stb_truetype.fixture` with a glyph whose box is 1 wide and 3 high. -/
def stb_truetype.tallGlyph : stb_truetype.Env :=
  { stb_truetype.fixture with left := 0, top := 0, right := 1, bottom := 3 }

/-- The font of `stb_truetype.fixture` without a glyph for the letter A. -/
def stb_truetype.missingGlyph : stb_truetype.Env :=
  { stb_truetype.fixture with glyph_index := 0 }

/-- A font file that could not be read: the buffer is null, the offset query answers -1
and `stbtt_InitFont` fails. -/
def stb_truetype.unreadable : stb_truetype.Env :=
  { stb_truetype.fixture with font_data := false, offset := -1, init_font := 0 }

/-- An Ogg file for which `stb_vorbis_decode_filename` returns -2. -/
def stb_vorbis.decodeMinusTwo : stb_vorbis.Env := { stb_vorbis.fixture with frames := -2 }

/-! ## Arithmetic of the conversions -/

/-- Truncated division of an integer by a positive count is the floor of the quotient
for a non-negative integer, and minus the floor of the negated quotient otherwise. -/
theorem tdiv_natCast_eq_floor (a : ℤ) (b : ℕ) :
    Int.tdiv a b = if 0 ≤ a then ⌊(a : ℚ) / b⌋ else -⌊(-a : ℚ) / b⌋ := by
  split_ifs with h
  · rw [Rat.floor_intCast_div_natCast]
    exact Int.tdiv_eq_ediv h (Int.ofNat_nonneg b)
  · have h2 : 0 ≤ -a := by omega
    have hc : ((-a : ℚ)) = ((-a : ℤ) : ℚ) := by push_cast; rfl
    rw [hc, Rat.floor_intCast_div_natCast, ← Int.tdiv_eq_ediv h2 (Int.ofNat_nonneg b),
      Int.neg_tdiv]
    simp

/-- The statement `i *= s` computes the product `i * s` truncated toward zero. -/
theorem mulAssignReal_eq_truncToInt (i : Int) (s : ℚ) :
    mulAssignReal i s = truncToInt (i * s) := by
  unfold mulAssignReal truncToInt
  rw [tdiv_natCast_eq_floor, tdiv_natCast_eq_floor]
  have h1 : (((i * s.num : ℤ) : ℚ) / s.den) = i * s := by
    push_cast
    rw [mul_div_assoc, Rat.num_div_den]
  have h2 : (((i * s : ℚ).num : ℚ) / (i * s : ℚ).den) = i * s := Rat.num_div_den _
  have h3 : (0 ≤ i * s.num) ↔ (0 ≤ (i * s : ℚ).num) := by
    rw [Rat.num_nonneg, ← h1]
    constructor
    · intro h
      apply div_nonneg
      · exact_mod_cast h
      · exact_mod_cast Nat.zero_le _
    · intro h
      have hd : (0 : ℚ) < s.den := by exact_mod_cast s.den_pos
      rcases div_nonneg_iff.mp h with ⟨ha, _⟩ | ⟨_, hb⟩
      · exact_mod_cast ha
      · exact absurd hb (not_le.mpr hd)
  simp only [h3]
  have h4 : ((-(i * s.num : ℤ) : ℚ) / s.den) = -((i * s : ℚ)) := by
    rw [neg_div, h1]
  have h5 : ((-((i * s : ℚ).num) : ℚ) / (i * s : ℚ).den) = -(i * s : ℚ) := by
    rw [neg_div, h2]
  rw [h1, h2, h4, h5]

/-! ## The claims -/

/-- C1: when the open call of dr_mp3, dr_wav or stb_vorbis reports failure, `main`
returns -1 and the only calls it has made are the open call and the `printf` of the
diagnostic: no read, seek, query, allocation, release or close. -/
theorem open_failure_stops (s1 s2 : Nat) (mp3 : dr_mp3.Env) (wav : dr_wav.Env)
    (ogg : stb_vorbis.Env)
    (h1 : mp3.init_file = 0) (h2 : wav.init_file = 0) (h3 : ogg.vorbis = false) :
    ((dr_mp3.main s1 mp3).exit = -1 ∧
      (dr_mp3.main s1 mp3).trace.map (·.fn) = [.drmp3_init_file, .printf]) ∧
    ((dr_wav.main s2 wav).exit = -1 ∧
      (dr_wav.main s2 wav).trace.map (·.fn) = [.drwav_init_file, .printf]) ∧
    ((stb_vorbis.main ogg).exit = -1 ∧
      (stb_vorbis.main ogg).trace.map (·.fn) = [.stb_vorbis_open_filename, .printf]) := by
  refine ⟨?_, ?_, ?_⟩
  · simp only [dr_mp3.main, h1]
    exact ⟨rfl, rfl⟩
  · simp only [dr_wav.main, h2]
    exact ⟨rfl, rfl⟩
  · simp only [stb_vorbis.main, h3]
    exact ⟨rfl, rfl⟩

/-- C1, at three failing opens. -/
theorem open_failure_stops_witness :
    ((dr_mp3.main 4 ⟨0, 0, 0, false, 0, false⟩).exit = -1 ∧
      (dr_mp3.main 4 ⟨0, 0, 0, false, 0, false⟩).trace.map (·.fn) =
        [.drmp3_init_file, .printf]) ∧
    ((dr_wav.main 4 ⟨0, 0, 0, false, 0, false⟩).exit = -1 ∧
      (dr_wav.main 4 ⟨0, 0, 0, false, 0, false⟩).trace.map (·.fn) =
        [.drwav_init_file, .printf]) ∧
    ((stb_vorbis.main ⟨false, 3, 0, 0, 0, 0⟩).exit = -1 ∧
      (stb_vorbis.main ⟨false, 3, 0, 0, 0, 0⟩).trace.map (·.fn) =
        [.stb_vorbis_open_filename, .printf]) :=
  open_failure_stops 4 4 ⟨0, 0, 0, false, 0, false⟩ ⟨0, 0, 0, false, 0, false⟩
    ⟨false, 3, 0, 0, 0, 0⟩ rfl rfl rfl

/-- C2: in stb_image `main`, whenever a call of `stbi_load` or `stbi_loadf` returned
null, the run ends with `stbi_failure_reason` and a `printf` that is given the returned
string for its `%s`, and exits with -1; and the exit code is -1 exactly when `stbi_load`
returned null, `stbi_info` returned something other than 1, or `stbi_loadf` returned
null. -/
theorem load_failure_reported (env : stb_image.Env) :
    ((∃ c ∈ (stb_image.main env).trace,
        (c.fn = .stbi_load ∨ c.fn = .stbi_loadf) ∧ c.ret = .ptr false) →
      PrintsFailureReason (stb_image.main env).trace ∧ (stb_image.main env).exit = -1) ∧
    ((stb_image.main env).exit = -1 →
      ∃ c ∈ (stb_image.main env).trace,
        (c.fn = .stbi_load ∧ c.ret = .ptr false) ∨
        (c.fn = .stbi_info ∧ c.ret ≠ .int 1) ∨
        (c.fn = .stbi_loadf ∧ c.ret = .ptr false)) := by
  simp only [stb_image.main]
  split_ifs with h1 h2 h3 h4
  · refine ⟨fun _ => ⟨⟨_, env.load_reason, _, rfl, by decide⟩, rfl⟩, fun _ => ?_⟩
    exact ⟨_, List.mem_cons_self _ _, Or.inl ⟨rfl, by rw [h1]⟩⟩
  · refine ⟨?_, fun _ => ?_⟩
    · simp at h1
      simp [h1, printf]
    · refine ⟨_, List.mem_cons_of_mem _ (List.mem_cons_self _ _), Or.inr (Or.inl ⟨rfl, ?_⟩)⟩
      simpa using h2
  · refine ⟨fun _ => ⟨⟨_, env.loadf_reason, _, rfl, by decide⟩, rfl⟩, fun _ => ?_⟩
    simp [h3]
  · refine ⟨?_, fun h => absurd h (by decide)⟩
    simp at h1 h3
    simp [h1, h3, printf]
  · refine ⟨?_, fun h => absurd h (by decide)⟩
    simp at h1 h3
    simp [h1, h3]

/-- C2, at a failing `stbi_load`. -/
theorem load_failure_reported_witness :
    PrintsFailureReason (stb_image.main ⟨false, "unknown image type", 1, true, "", 0⟩).trace ∧
    (stb_image.main ⟨false, "unknown image type", 1, true, "", 0⟩).exit = -1 :=
  (load_failure_reported ⟨false, "unknown image type", 1, true, "", 0⟩).1
    ⟨_, List.mem_cons_self _ _, Or.inl rfl, rfl⟩

/-- C3 as stated fails: with a successful `stb_vorbis_seek_start` and a
`stb_vorbis_seek_frame` that returns 0, `main` goes on to `stb_vorbis_seek` and the
later calls and exits with 0. -/
theorem seek_frame_failure_ignored :
    ¬ SeekFailureStops (stb_vorbis.main ⟨true, 0, 1, 0, 1, 10⟩) := by
  intro h
  have h4 := (h ((stb_vorbis.main ⟨true, 0, 1, 0, 1, 10⟩).trace.take 3)
    ⟨.stb_vorbis_seek_frame, [.var .vorbis, .int 420], .int 0, none⟩
    ((stb_vorbis.main ⟨true, 0, 1, 0, 1, 10⟩).trace.drop 4) rfl rfl rfl).1
  revert h4
  decide

/-- C3, amended: in stb_vorbis `main` only `stb_vorbis_seek_start` is checked.  When it
returns anything other than 1, `main` exits with -1 and its last library call is that
seek; the values `stb_vorbis_seek_frame` and `stb_vorbis_seek` return are discarded, so
the calls `main` makes and its exit code are the same whatever they are. -/
theorem seek_start_failure_stops (env : stb_vorbis.Env) (h : env.vorbis = true) :
    (env.seek_start ≠ 1 →
      (stb_vorbis.main env).exit = -1 ∧
      (stb_vorbis.main env).trace.map (·.fn) =
        [.stb_vorbis_open_filename, .stb_vorbis_get_info, .stb_vorbis_seek_start, .printf]) ∧
    (∀ a b : Int,
      (stb_vorbis.main { env with seek_frame := a, seek := b }).exit =
        (stb_vorbis.main env).exit ∧
      shape (stb_vorbis.main { env with seek_frame := a, seek := b }).trace =
        shape (stb_vorbis.main env).trace) := by
  refine ⟨fun hs => ?_, fun a b => ?_⟩
  · simp only [stb_vorbis.main, h, Bool.true_eq_false, ↓reduceIte]
    rw [if_pos hs]
    exact ⟨rfl, rfl⟩
  · simp only [stb_vorbis.main, h, Bool.true_eq_false, ↓reduceIte]
    split_ifs <;> exact ⟨rfl, rfl⟩

/-- C3 amended, at a failing `stb_vorbis_seek_start`. -/
theorem seek_start_failure_stops_witness :
    (stb_vorbis.main ⟨true, 0, 0, 1, 1, 10⟩).exit = -1 ∧
    (stb_vorbis.main ⟨true, 0, 0, 1, 1, 10⟩).trace.map (·.fn) =
      [.stb_vorbis_open_filename, .stb_vorbis_get_info, .stb_vorbis_seek_start, .printf] :=
  (seek_start_failure_stops ⟨true, 0, 0, 1, 1, 10⟩ rfl).1 (by decide)

/-- A product of three values that fits in 64 bits is computed without wrap-around. -/
theorem mul64_mul64_exact (f c s : Nat) (h : f * c * s < 2 ^ 64) :
    mul64 (mul64 f c) s = f * c * s := by
  unfold mul64 SIZE_BITS
  rcases Nat.eq_zero_or_pos s with hs | hs
  · subst hs
    simp
  · have hfc : f * c < 2 ^ 64 :=
      lt_of_le_of_lt (Nat.le_mul_of_pos_right _ hs) h
    rw [Nat.mod_eq_of_lt hfc, Nat.mod_eq_of_lt h]

/-- C4: in dr_mp3 and dr_wav `main`, when `totalPCMFrameCount * channels * sizeof(int)`
does not wrap around, the call right after the open is a `malloc` of exactly that many
bytes into `s32_samples_buffer`, and the call after it asks `read_pcm_frames_s32` for
exactly `totalPCMFrameCount` frames; so the buffer has at least
frames * `sizeof(int)` * channels bytes, and for 44100 frames of 2 channels it holds
exactly 88200 samples of `sizeof(int)` bytes. -/
theorem s32_buffer_sized_for_request (sizeof_int : Nat) (mp3 : dr_mp3.Env) (wav : dr_wav.Env)
    (hm : mp3.init_file ≠ 0) (hw : wav.init_file ≠ 0)
    (hmsize : mp3.totalPCMFrameCount * mp3.channels * sizeof_int < 2 ^ 64)
    (hwsize : wav.totalPCMFrameCount * wav.channels * sizeof_int < 2 ^ 64) :
    ((dr_mp3.main sizeof_int mp3).trace[1]? =
        some ⟨.malloc, [.nat (mp3.totalPCMFrameCount * mp3.channels * sizeof_int)],
          .ptr mp3.malloc_ok, some .s32_samples_buffer⟩ ∧
      (dr_mp3.main sizeof_int mp3).trace[2]? =
        some ⟨.drmp3_read_pcm_frames_s32,
          [.addr .mp3, .nat mp3.totalPCMFrameCount, .var .samples_buffer],
          .nat mp3.frames_read, some .frames_read⟩ ∧
      mp3.totalPCMFrameCount * sizeof_int * mp3.channels ≤
        mp3.totalPCMFrameCount * mp3.channels * sizeof_int ∧
      (mp3.totalPCMFrameCount = 44100 → mp3.channels = 2 →
        mp3.totalPCMFrameCount * mp3.channels * sizeof_int = 88200 * sizeof_int)) ∧
    ((dr_wav.main sizeof_int wav).trace[1]? =
        some ⟨.malloc, [.nat (wav.totalPCMFrameCount * wav.channels * sizeof_int)],
          .ptr wav.malloc_ok, some .s32_samples_buffer⟩ ∧
      (dr_wav.main sizeof_int wav).trace[2]? =
        some ⟨.drwav_read_pcm_frames_s32,
          [.addr .wav, .nat wav.totalPCMFrameCount, .var .samples_buffer],
          .nat wav.frames_read, some .frames_read⟩ ∧
      wav.totalPCMFrameCount * sizeof_int * wav.channels ≤
        wav.totalPCMFrameCount * wav.channels * sizeof_int ∧
      (wav.totalPCMFrameCount = 44100 → wav.channels = 2 →
        wav.totalPCMFrameCount * wav.channels * sizeof_int = 88200 * sizeof_int)) := by
  refine ⟨⟨?_, ?_, ?_, ?_⟩, ⟨?_, ?_, ?_, ?_⟩⟩
  · simp only [dr_mp3.main, if_neg hm, mul64_mul64_exact _ _ _ hmsize]
    split_ifs <;> rfl
  · simp only [dr_mp3.main, if_neg hm]
    split_ifs <;> rfl
  · exact le_of_eq (Nat.mul_right_comm _ _ _)
  · intro hf hc
    rw [hf, hc]
  · simp only [dr_wav.main, if_neg hw, mul64_mul64_exact _ _ _ hwsize]
    split_ifs <;> rfl
  · simp only [dr_wav.main, if_neg hw]
    split_ifs <;> rfl
  · exact le_of_eq (Nat.mul_right_comm _ _ _)
  · intro hf hc
    rw [hf, hc]

/-- C4, at the 1-second stereo 44100 Hz fixture with a 4-byte `int`: 352800 bytes, that
is 88200 samples, are allocated. -/
theorem s32_buffer_sized_for_request_witness :
    (dr_mp3.main 4 ⟨1, 44100, 2, true, 44100, true⟩).trace[1]? =
      some ⟨.malloc, [.nat (88200 * 4)], .ptr true, some .s32_samples_buffer⟩ :=
  (s32_buffer_sized_for_request 4 ⟨1, 44100, 2, true, 44100, true⟩
    ⟨1, 44100, 2, true, 44100, true⟩ (by decide) (by decide) (by decide) (by decide)).1.1

/-- On the success path of dr_mp3 `main` the one-shot `samples` buffer is the only
library buffer; it is released once, by `drmp3_free`, and not used afterwards. -/
theorem dr_mp3_success (s : Nat) (env : dr_mp3.Env)
    (h : env.init_file ≠ 0 ∧ env.samples = true) :
    (dr_mp3.main s env).exit = 0 ∧
    libraryBuffers (dr_mp3.main s env).trace = [.samples] ∧
    releasers .samples (dr_mp3.main s env).trace = [.drmp3_free] ∧
    usedAfterRelease .samples (dr_mp3.main s env).trace = false := by
  simp only [dr_mp3.main, if_neg h.1, h.2, Bool.true_eq_false, ↓reduceIte]
  refine ⟨?_, ?_, ?_, ?_⟩ <;> first | rfl | trivial

/-- On the success path of dr_wav `main` the one-shot `samples` buffer is the only
library buffer; it is released once, by `drwav_free`, and not used afterwards. -/
theorem dr_wav_success (s : Nat) (env : dr_wav.Env)
    (h : env.init_file ≠ 0 ∧ env.samples = true) :
    (dr_wav.main s env).exit = 0 ∧
    libraryBuffers (dr_wav.main s env).trace = [.samples] ∧
    releasers .samples (dr_wav.main s env).trace = [.drwav_free] ∧
    usedAfterRelease .samples (dr_wav.main s env).trace = false := by
  simp only [dr_wav.main, if_neg h.1, h.2, Bool.true_eq_false, ↓reduceIte]
  refine ⟨?_, ?_, ?_, ?_⟩ <;> first | rfl | trivial

/-- On the success path of stb_image `main` the library buffers are `pixels` and
`hdr_pixels`; each is released once, by `stbi_image_free`, and not used afterwards. -/
theorem stb_image_success (env : stb_image.Env)
    (h : env.pixels = true ∧ env.err = 1 ∧ env.hdr_pixels = true) :
    (stb_image.main env).exit = 0 ∧
    libraryBuffers (stb_image.main env).trace = [.pixels, .hdr_pixels] ∧
    (releasers .pixels (stb_image.main env).trace = [.stbi_image_free] ∧
      usedAfterRelease .pixels (stb_image.main env).trace = false) ∧
    (releasers .hdr_pixels (stb_image.main env).trace = [.stbi_image_free] ∧
      usedAfterRelease .hdr_pixels (stb_image.main env).trace = false) := by
  obtain ⟨h1, h2, h3⟩ := h
  simp only [stb_image.main, h1, h2, h3, Bool.true_eq_false, ne_eq, not_true_eq_false,
    ↓reduceIte]
  split_ifs <;> refine ⟨?_, ?_, ⟨?_, ?_⟩, ⟨?_, ?_⟩⟩ <;> first | rfl | trivial

/-- On the success path of stb_truetype `main` the only library buffer is
`glyph_bitmap`; it is released once, by `stbtt_FreeBitmap`, and not used afterwards. -/
theorem stb_truetype_success (s : Nat) (env : stb_truetype.Env) (h : env.init_font ≠ 0) :
    (stb_truetype.main s env).exit = 0 ∧
    libraryBuffers (stb_truetype.main s env).trace = [.glyph_bitmap] ∧
    releasers .glyph_bitmap (stb_truetype.main s env).trace = [.stbtt_FreeBitmap] ∧
    usedAfterRelease .glyph_bitmap (stb_truetype.main s env).trace = false := by
  simp only [stb_truetype.main, if_neg h]
  refine ⟨?_, ?_, ?_, ?_⟩ <;> first | rfl | trivial

/-- On the path of stb_vorbis `main` on which every check passes the only library
buffer is `samples`; it is released once, by `free`, and not used afterwards. -/
theorem stb_vorbis_success (env : stb_vorbis.Env)
    (h : env.vorbis = true ∧ env.seek_start = 1 ∧ env.frames ≠ -1) :
    (stb_vorbis.main env).exit = 0 ∧
    libraryBuffers (stb_vorbis.main env).trace = [.samples] ∧
    releasers .samples (stb_vorbis.main env).trace = [.free] ∧
    usedAfterRelease .samples (stb_vorbis.main env).trace = false := by
  obtain ⟨h1, h2, h3⟩ := h
  simp only [stb_vorbis.main, h1, h2, if_neg h3, Bool.true_eq_false, ne_eq,
    not_true_eq_false, ↓reduceIte]
  refine ⟨?_, ?_, ?_, ?_⟩ <;> first | rfl | trivial

/-- The number of releasing calls is the length of the list of their functions. -/
theorem releaseCount_eq_length_releasers (v : Var) (t : List Call) :
    releaseCount v t = (releasers v t).length := by
  simp [releaseCount, releasers]

/-- C5: on the success path of each of the five sample programs (every check `main`
makes passes), `main` exits with 0 and every library-allocated buffer - `samples` of
dr_mp3, dr_wav and stb_vorbis, `pixels` and `hdr_pixels` of stb_image, `glyph_bitmap` of
stb_truetype - is passed to a release call exactly once and to no call after it. -/
theorem library_buffers_released_once (s1 s2 s3 : Nat) (mp3 : dr_mp3.Env) (wav : dr_wav.Env)
    (img : stb_image.Env) (tt : stb_truetype.Env) (ogg : stb_vorbis.Env)
    (hmp3 : mp3.init_file ≠ 0 ∧ mp3.samples = true)
    (hwav : wav.init_file ≠ 0 ∧ wav.samples = true)
    (himg : img.pixels = true ∧ img.err = 1 ∧ img.hdr_pixels = true)
    (htt : tt.init_font ≠ 0)
    (hogg : ogg.vorbis = true ∧ ogg.seek_start = 1 ∧ ogg.frames ≠ -1) :
    (libraryBuffers (dr_mp3.main s1 mp3).trace = [.samples] ∧
      libraryBuffers (dr_wav.main s2 wav).trace = [.samples] ∧
      libraryBuffers (stb_image.main img).trace = [.pixels, .hdr_pixels] ∧
      libraryBuffers (stb_truetype.main s3 tt).trace = [.glyph_bitmap] ∧
      libraryBuffers (stb_vorbis.main ogg).trace = [.samples]) ∧
    ∀ r ∈ [dr_mp3.main s1 mp3, dr_wav.main s2 wav, stb_image.main img,
        stb_truetype.main s3 tt, stb_vorbis.main ogg],
      r.exit = 0 ∧
      ∀ v ∈ libraryBuffers r.trace,
        releaseCount v r.trace = 1 ∧ usedAfterRelease v r.trace = false := by
  have a := dr_mp3_success s1 mp3 hmp3
  have b := dr_wav_success s2 wav hwav
  have c := stb_image_success img himg
  have d := stb_truetype_success s3 tt htt
  have e := stb_vorbis_success ogg hogg
  refine ⟨⟨a.2.1, b.2.1, c.2.1, d.2.1, e.2.1⟩, ?_⟩
  simp only [List.forall_mem_cons, List.not_mem_nil, false_implies, implies_true, and_true]
  refine ⟨⟨a.1, ?_⟩, ⟨b.1, ?_⟩, ⟨c.1, ?_⟩, ⟨d.1, ?_⟩, ⟨e.1, ?_⟩⟩
  · rw [a.2.1]
    simp [releaseCount_eq_length_releasers, a.2.2.1, a.2.2.2]
  · rw [b.2.1]
    simp [releaseCount_eq_length_releasers, b.2.2.1, b.2.2.2]
  · rw [c.2.1]
    simp [releaseCount_eq_length_releasers, c.2.2.1.1, c.2.2.1.2, c.2.2.2.1, c.2.2.2.2]
  · rw [d.2.1]
    simp [releaseCount_eq_length_releasers, d.2.2.1, d.2.2.2]
  · rw [e.2.1]
    simp [releaseCount_eq_length_releasers, e.2.2.1, e.2.2.2]

/-- C5, at one successful run of each program. -/
theorem library_buffers_released_once_witness :
    (libraryBuffers (dr_mp3.main 4 dr_mp3.fixture).trace = [.samples] ∧
      libraryBuffers (dr_wav.main 4 dr_wav.fixture).trace = [.samples] ∧
      libraryBuffers (stb_image.main stb_image.fixture).trace = [.pixels, .hdr_pixels] ∧
      libraryBuffers (stb_truetype.main 12 stb_truetype.fixture).trace = [.glyph_bitmap] ∧
      libraryBuffers (stb_vorbis.main stb_vorbis.fixture).trace = [.samples]) ∧
    ∀ r ∈ [dr_mp3.main 4 dr_mp3.fixture, dr_wav.main 4 dr_wav.fixture,
        stb_image.main stb_image.fixture, stb_truetype.main 12 stb_truetype.fixture,
        stb_vorbis.main stb_vorbis.fixture],
      r.exit = 0 ∧
      ∀ v ∈ libraryBuffers r.trace,
        releaseCount v r.trace = 1 ∧ usedAfterRelease v r.trace = false :=
  library_buffers_released_once 4 4 12 dr_mp3.fixture dr_wav.fixture stb_image.fixture
    stb_truetype.fixture stb_vorbis.fixture (by decide) (by decide) (by decide) (by decide)
    (by decide)

/-- C6 as stated fails: on a successful run of stb_vorbis `main` the `samples` buffer
that `stb_vorbis_decode_filename` allocated is released by the generic `free`. -/
theorem vorbis_samples_released_by_free :
    releasedByOwnLibrary (stb_vorbis.main stb_vorbis.fixture).trace = false ∧
    libraryBuffers (stb_vorbis.main stb_vorbis.fixture).trace = [.samples] ∧
    releasers .samples (stb_vorbis.main stb_vorbis.fixture).trace = [.free] := by
  decide

/-- Whatever dr_mp3 hands back, no release in the trace of `main` is mismatched. -/
theorem dr_mp3_releases_matched (s : Nat) (env : dr_mp3.Env) :
    releasedByOwnLibrary (dr_mp3.main s env).trace = true := by
  simp only [dr_mp3.main]
  split_ifs <;> rfl

/-- Whatever dr_wav hands back, no release in the trace of `main` is mismatched. -/
theorem dr_wav_releases_matched (s : Nat) (env : dr_wav.Env) :
    releasedByOwnLibrary (dr_wav.main s env).trace = true := by
  simp only [dr_wav.main]
  split_ifs <;> rfl

/-- Whatever stb_image hands back, no release in the trace of `main` is mismatched. -/
theorem stb_image_releases_matched (env : stb_image.Env) :
    releasedByOwnLibrary (stb_image.main env).trace = true := by
  simp only [stb_image.main]
  split_ifs <;> rfl

/-- Whatever stb_truetype hands back, no release in the trace of `main` is mismatched. -/
theorem stb_truetype_releases_matched (s : Nat) (env : stb_truetype.Env) :
    releasedByOwnLibrary (stb_truetype.main s env).trace = true := by
  simp only [stb_truetype.main]
  split_ifs <;> rfl

/-- Whatever stb_vorbis hands back, `samples` is released by nothing but `free`. -/
theorem stb_vorbis_releases_by_free (env : stb_vorbis.Env) :
    ∀ c ∈ (stb_vorbis.main env).trace, c.releases .samples = true → c.fn = .free := by
  simp only [stb_vorbis.main]
  split_ifs <;> simp [printf, Call.releases, Call.mentions, Arg.refers, Fn.isRelease]

/-- C6, amended: in dr_mp3, dr_wav, stb_image and stb_truetype `main`, on every path,
each call that releases a library-allocated buffer is a call of that library's own
release function and never of `free`, and on the success path the buffer is released by
`drmp3_free`, `drwav_free`, `stbi_image_free` and `stbtt_FreeBitmap` respectively; in
stb_vorbis `main` the `samples` buffer of `stb_vorbis_decode_filename` is released by
the generic `free` and by nothing else. -/
theorem library_buffers_released_by_matching_call (s1 s2 s3 : Nat) (mp3 : dr_mp3.Env)
    (wav : dr_wav.Env) (img : stb_image.Env) (tt : stb_truetype.Env) (ogg : stb_vorbis.Env) :
    (releasedByOwnLibrary (dr_mp3.main s1 mp3).trace = true ∧
      (mp3.init_file ≠ 0 ∧ mp3.samples = true →
        releasers .samples (dr_mp3.main s1 mp3).trace = [.drmp3_free])) ∧
    (releasedByOwnLibrary (dr_wav.main s2 wav).trace = true ∧
      (wav.init_file ≠ 0 ∧ wav.samples = true →
        releasers .samples (dr_wav.main s2 wav).trace = [.drwav_free])) ∧
    (releasedByOwnLibrary (stb_image.main img).trace = true ∧
      (img.pixels = true ∧ img.err = 1 ∧ img.hdr_pixels = true →
        releasers .pixels (stb_image.main img).trace = [.stbi_image_free] ∧
        releasers .hdr_pixels (stb_image.main img).trace = [.stbi_image_free])) ∧
    (releasedByOwnLibrary (stb_truetype.main s3 tt).trace = true ∧
      (tt.init_font ≠ 0 →
        releasers .glyph_bitmap (stb_truetype.main s3 tt).trace = [.stbtt_FreeBitmap])) ∧
    ((∀ c ∈ (stb_vorbis.main ogg).trace, c.releases .samples = true → c.fn = .free) ∧
      (ogg.vorbis = true ∧ ogg.seek_start = 1 ∧ ogg.frames ≠ -1 →
        releasers .samples (stb_vorbis.main ogg).trace = [.free])) :=
  ⟨⟨dr_mp3_releases_matched s1 mp3, fun h => (dr_mp3_success s1 mp3 h).2.2.1⟩,
   ⟨dr_wav_releases_matched s2 wav, fun h => (dr_wav_success s2 wav h).2.2.1⟩,
   ⟨stb_image_releases_matched img,
     fun h => ⟨(stb_image_success img h).2.2.1.1, (stb_image_success img h).2.2.2.1⟩⟩,
   ⟨stb_truetype_releases_matched s3 tt, fun h => (stb_truetype_success s3 tt h).2.2.1⟩,
   ⟨stb_vorbis_releases_by_free ogg, fun h => (stb_vorbis_success ogg h).2.2.1⟩⟩

/-- C6 amended, at one successful run of each program. -/
theorem library_buffers_released_by_matching_call_witness :
    releasers .samples (dr_mp3.main 4 dr_mp3.fixture).trace = [.drmp3_free] ∧
    releasers .samples (dr_wav.main 4 dr_wav.fixture).trace = [.drwav_free] ∧
    (releasers .pixels (stb_image.main stb_image.fixture).trace = [.stbi_image_free] ∧
      releasers .hdr_pixels (stb_image.main stb_image.fixture).trace = [.stbi_image_free]) ∧
    releasers .glyph_bitmap (stb_truetype.main 12 stb_truetype.fixture).trace =
      [.stbtt_FreeBitmap] ∧
    releasers .samples (stb_vorbis.main stb_vorbis.fixture).trace = [.free] :=
  have h := library_buffers_released_by_matching_call 4 4 12 dr_mp3.fixture dr_wav.fixture
    stb_image.fixture stb_truetype.fixture stb_vorbis.fixture
  ⟨h.1.2 (by decide), h.2.1.2 (by decide), h.2.2.1.2 (by decide), h.2.2.2.1.2 (by decide),
    h.2.2.2.2.2 (by decide)⟩

/-- C7 fails on the code: when `stbi_load` succeeds and `stbi_info` then fails, or
`stbi_loadf` then returns null, stb_image `main` exits with -1 and has made no release
call for `pixels`. -/
theorem early_return_leaks_pixels :
    ((stb_image.main ⟨true, "", 0, true, "", 0⟩).exit = -1 ∧
      (stb_image.main ⟨true, "", 0, true, "", 0⟩).trace.map (·.fn) =
        [.stbi_load, .stbi_info, .printf] ∧
      releaseCount .pixels (stb_image.main ⟨true, "", 0, true, "", 0⟩).trace = 0) ∧
    ((stb_image.main ⟨true, "", 1, false, "bad hdr", 0⟩).exit = -1 ∧
      (stb_image.main ⟨true, "", 1, false, "bad hdr", 0⟩).trace.map (·.fn) =
        [.stbi_load, .stbi_info, .stbi_hdr_to_ldr_gamma, .stbi_hdr_to_ldr_scale,
         .stbi_ldr_to_hdr_scale, .stbi_ldr_to_hdr_gamma, .stbi_loadf, .stbi_failure_reason,
         .printf] ∧
      releaseCount .pixels (stb_image.main ⟨true, "", 1, false, "bad hdr", 0⟩).trace = 0) := by
  decide

/-- C8 fails on the code: when the open succeeds and `stb_vorbis_seek_start` then fails,
or `stb_vorbis_decode_filename` then returns -1, stb_vorbis `main` exits with -1 and has
not called `stb_vorbis_close`. -/
theorem early_return_leaves_vorbis_open :
    ((stb_vorbis.main ⟨true, 0, 0, 0, 0, 0⟩).exit = -1 ∧
      (stb_vorbis.main ⟨true, 0, 0, 0, 0, 0⟩).trace.map (·.fn) =
        [.stb_vorbis_open_filename, .stb_vorbis_get_info, .stb_vorbis_seek_start, .printf] ∧
      closeCount .stb_vorbis_close .vorbis (stb_vorbis.main ⟨true, 0, 0, 0, 0, 0⟩).trace = 0) ∧
    ((stb_vorbis.main ⟨true, 0, 1, 1, 1, -1⟩).exit = -1 ∧
      (stb_vorbis.main ⟨true, 0, 1, 1, 1, -1⟩).trace.map (·.fn) =
        [.stb_vorbis_open_filename, .stb_vorbis_get_info, .stb_vorbis_seek_start,
         .stb_vorbis_seek_frame, .stb_vorbis_seek, .stb_vorbis_decode_filename, .printf] ∧
      closeCount .stb_vorbis_close .vorbis (stb_vorbis.main ⟨true, 0, 1, 1, 1, -1⟩).trace = 0) := by
  decide

/-- The life cycle check rejects a read after the close and a read after a failed
open. -/
theorem handleRun_rejects_misuse :
    handleRun .drmp3_init_file .drmp3_uninit .mp3 .unopened
      [⟨.drmp3_init_file, [.addr .mp3, .str "a.mp3", .null], .nat 1, none⟩,
       ⟨.drmp3_uninit, [.addr .mp3], .void, none⟩,
       ⟨.drmp3_read_pcm_frames_s32, [.addr .mp3, .nat 1, .var .samples_buffer], .nat 1,
         none⟩] = none ∧
    handleRun .drmp3_init_file .drmp3_uninit .mp3 .unopened
      [⟨.drmp3_init_file, [.addr .mp3, .str "a.mp3", .null], .nat 0, none⟩,
       ⟨.drmp3_read_pcm_frames_s32, [.addr .mp3, .nat 1, .var .samples_buffer], .nat 1,
         none⟩] = none := by
  decide

/-- C9: in dr_mp3, dr_wav and stb_vorbis `main`, on every path, the life cycle check of
the session handle passes: every call that takes the handle comes after an open that
reported success and before the close, and no call takes it after the close.  The
session ends unopened when the open failed; otherwise closed in dr_mp3 and dr_wav, and
in stb_vorbis closed when the later checks pass and still opened when one fails. -/
theorem handle_used_only_while_open (s1 s2 : Nat) (mp3 : dr_mp3.Env) (wav : dr_wav.Env)
    (ogg : stb_vorbis.Env) :
    handleRun .drmp3_init_file .drmp3_uninit .mp3 .unopened (dr_mp3.main s1 mp3).trace =
      some (if mp3.init_file = 0 then .unopened else .closed) ∧
    handleRun .drwav_init_file .drwav_uninit .wav .unopened (dr_wav.main s2 wav).trace =
      some (if wav.init_file = 0 then .unopened else .closed) ∧
    handleRun .stb_vorbis_open_filename .stb_vorbis_close .vorbis .unopened
        (stb_vorbis.main ogg).trace =
      some (if ogg.vorbis = false then .unopened
        else if ogg.seek_start ≠ 1 ∨ ogg.frames = -1 then .opened else .closed) := by
  refine ⟨?_, ?_, ?_⟩
  · simp only [dr_mp3.main]
    split_ifs with h1 h2 <;>
      simp [handleRun, handleStep, Ret.truthy, Call.mentions, Arg.refers, printf, h1]
  · simp only [dr_wav.main]
    split_ifs with h1 h2 <;>
      simp [handleRun, handleStep, Ret.truthy, Call.mentions, Arg.refers, printf, h1]
  · simp only [stb_vorbis.main]
    split_ifs with h1 h2 h3 <;>
      simp_all [handleRun, handleStep, Ret.truthy, Call.mentions, Arg.refers, printf]

/-- C10: in dr_mp3 and dr_wav `main` the value `read_pcm_frames_s32` returns is not
examined: whatever it is (0, fewer than requested, or all), the exit code and the calls
made, with their arguments, are those of the run in which it returns 0; and when the
open succeeded the calls that follow the read are the `free` of `s32_samples_buffer`,
the uninit of the handle and the one-shot decode. -/
theorem short_read_not_an_error (s1 s2 n : Nat) (mp3 : dr_mp3.Env) (wav : dr_wav.Env) :
    ((dr_mp3.main s1 { mp3 with frames_read := n }).exit =
        (dr_mp3.main s1 { mp3 with frames_read := 0 }).exit ∧
      shape (dr_mp3.main s1 { mp3 with frames_read := n }).trace =
        shape (dr_mp3.main s1 { mp3 with frames_read := 0 }).trace ∧
      (mp3.init_file ≠ 0 →
        (dr_mp3.main s1 { mp3 with frames_read := n }).trace[2]?.map (fun c => (c.fn, c.ret)) =
          some (.drmp3_read_pcm_frames_s32, .nat n) ∧
        ((shape (dr_mp3.main s1 { mp3 with frames_read := n }).trace).drop 3).take 3 =
          [(.free, [.var .s32_samples_buffer]), (.drmp3_uninit, [.addr .mp3]),
           (.drmp3_open_file_and_read_pcm_frames_f32,
             [.str "path/to/audio.mp3", .addr .mp3_config, .addr .total_frames, .null])])) ∧
    ((dr_wav.main s2 { wav with frames_read := n }).exit =
        (dr_wav.main s2 { wav with frames_read := 0 }).exit ∧
      shape (dr_wav.main s2 { wav with frames_read := n }).trace =
        shape (dr_wav.main s2 { wav with frames_read := 0 }).trace ∧
      (wav.init_file ≠ 0 →
        (dr_wav.main s2 { wav with frames_read := n }).trace[2]?.map (fun c => (c.fn, c.ret)) =
          some (.drwav_read_pcm_frames_s32, .nat n) ∧
        ((shape (dr_wav.main s2 { wav with frames_read := n }).trace).drop 3).take 3 =
          [(.free, [.var .s32_samples_buffer]), (.drwav_uninit, [.addr .wav]),
           (.drwav_open_file_and_read_pcm_frames_f32,
             [.str "path/to/audio.wav", .addr .channels, .addr .sample_rate,
              .addr .total_frames, .null])])) := by
  refine ⟨⟨?_, ?_, fun h => ⟨?_, ?_⟩⟩, ⟨?_, ?_, fun h => ⟨?_, ?_⟩⟩⟩
  · simp only [dr_mp3.main]
    split_ifs <;> rfl
  · simp only [dr_mp3.main]
    split_ifs <;> rfl
  · simp only [dr_mp3.main, if_neg h]
    split_ifs <;> rfl
  · simp only [dr_mp3.main, if_neg h]
    split_ifs <;> rfl
  · simp only [dr_wav.main]
    split_ifs <;> rfl
  · simp only [dr_wav.main]
    split_ifs <;> rfl
  · simp only [dr_wav.main, if_neg h]
    split_ifs <;> rfl
  · simp only [dr_wav.main, if_neg h]
    split_ifs <;> rfl

/-- C10, at a read that returns 10 frames of the 44100 requested. -/
theorem short_read_not_an_error_witness :
    (dr_mp3.main 4 { dr_mp3.fixture with frames_read := 10 }).trace[2]?.map
        (fun c => (c.fn, c.ret)) = some (.drmp3_read_pcm_frames_s32, .nat 10) ∧
    ((shape (dr_mp3.main 4 { dr_mp3.fixture with frames_read := 10 }).trace).drop 3).take 3 =
      [(.free, [.var .s32_samples_buffer]), (.drmp3_uninit, [.addr .mp3]),
       (.drmp3_open_file_and_read_pcm_frames_f32,
         [.str "path/to/audio.mp3", .addr .mp3_config, .addr .total_frames, .null])] :=
  (short_read_not_an_error 4 4 10 dr_mp3.fixture dr_wav.fixture).1.2.2 (by decide)

/-- C11 fails on the code: for a glyph box 1 wide and 3 high (left 0, right 1, top 0,
bottom 3) `main` allocates 3 bytes for `out_bitmap` and passes width 1, height 3 and
stride 3 (the height) to `stbtt_MakeGlyphBitmap`; the offsets asked for are 0, 3 and 6,
and two of them lie outside the 3 bytes. -/
theorem stride_height_overruns_out_bitmap :
    stb_truetype.tallGlyph.left ≤ stb_truetype.tallGlyph.right ∧
    stb_truetype.tallGlyph.top ≤ stb_truetype.tallGlyph.bottom ∧
    mallocBytes .out_bitmap (stb_truetype.main 12 stb_truetype.tallGlyph).trace = some 3 ∧
    makeBitmapRequest (stb_truetype.main 12 stb_truetype.tallGlyph).trace = some (1, 3, 3) ∧
    writeOffsets 1 3 3 = [0, 3, 6] ∧
    writesInBounds (stb_truetype.main 12 stb_truetype.tallGlyph).trace = false := by
  decide

/-- The product with the scale factor, truncated, is what `i *= s` computes. -/
theorem scaledMetric_eq_mulAssignReal (a : Int) (s : ℚ) :
    scaledMetric a s = mulAssignReal a s :=
  (mulAssignReal_eq_truncToInt a s).symm

/-- With the scale factor taken as an exact rational, the vertical metrics are scaled
as products with the scale factor truncated toward zero; the horizontal ones are
multiplied by the truncated scale factor. -/
theorem metrics_scaling (env : stb_truetype.Env) :
    (stb_truetype.locals env).ascent = scaledMetric env.ascent env.scale_factor ∧
    (stb_truetype.locals env).descent = scaledMetric env.descent env.scale_factor ∧
    (stb_truetype.locals env).line_gap = scaledMetric env.line_gap env.scale_factor ∧
    (stb_truetype.locals env).advance =
      wrap32 (env.advance * truncToInt env.scale_factor) ∧
    (stb_truetype.locals env).left_side_bearing =
      wrap32 (env.left_side_bearing * truncToInt env.scale_factor) := by
  simp only [scaledMetric_eq_mulAssignReal]
  exact ⟨rfl, rfl, rfl, rfl, rfl⟩

/-- C12 fails on the code: with the scale factor 8/75, an ascent of 1900 becomes 202,
its product with the factor truncated toward zero, but an advance of 1300 and a left
side bearing of 20 both become 0, where the products truncated are 138 and 2: the
source multiplies them by the scale factor cast to `int`, which is 0. -/
theorem horizontal_metrics_lose_scale :
    (stb_truetype.locals stb_truetype.fixture).ascent =
      scaledMetric 1900 stb_truetype.fixture.scale_factor ∧
    (stb_truetype.locals stb_truetype.fixture).ascent = 202 ∧
    (stb_truetype.locals stb_truetype.fixture).advance = 0 ∧
    scaledMetric 1300 stb_truetype.fixture.scale_factor = 138 ∧
    (stb_truetype.locals stb_truetype.fixture).left_side_bearing = 0 ∧
    scaledMetric 20 stb_truetype.fixture.scale_factor = 2 := by
  simp only [scaledMetric_eq_mulAssignReal]
  decide

/-- Whenever `stbtt_InitFont` succeeds, `main` makes both calls that create a glyph
bitmap, whatever `stbtt_FindGlyphIndex` returned. -/
theorem rasterCalls_unconditional (s : Nat) (env : stb_truetype.Env)
    (h : env.init_font ≠ 0) :
    (rasterCalls (stb_truetype.main s env).trace).map (·.fn) =
      [.stbtt_GetGlyphBitmap, .stbtt_MakeGlyphBitmap] := by
  simp only [stb_truetype.main, if_neg h]
  rfl

/-- C13 fails on the code: when `stbtt_FindGlyphIndex` returns 0 for the letter A,
`main` still calls `stbtt_GetGlyphBitmap` and `stbtt_MakeGlyphBitmap`, each with glyph
index 0. -/
theorem missing_glyph_still_rasterised :
    stb_truetype.missingGlyph.glyph_index = 0 ∧
    (rasterCalls (stb_truetype.main 12 stb_truetype.missingGlyph).trace).map (·.fn) =
      [.stbtt_GetGlyphBitmap, .stbtt_MakeGlyphBitmap] ∧
    argsOf .stbtt_GetGlyphBitmap (stb_truetype.main 12 stb_truetype.missingGlyph).trace =
      some [.var .info, .rat 0, .rat (mkRat 256 2400), .int 0, .addr .width, .addr .height,
        .addr .offset_x, .addr .offset_y] ∧
    argsOf .stbtt_MakeGlyphBitmap (stb_truetype.main 12 stb_truetype.missingGlyph).trace =
      some [.var .info, .var .out_bitmap, .int 140, .int 150, .int 150,
        .rat (mkRat 256 2400), .rat (mkRat 256 2400), .int 0] :=
  ⟨rfl, rfl, rfl, rfl⟩

/-- When `stbtt_InitFont` returns 0, `main` exits with -1 and makes no later font
query. -/
theorem init_font_failure_stops (s : Nat) (env : stb_truetype.Env) (h : env.init_font = 0) :
    (stb_truetype.main s env).exit = -1 ∧
    (stb_truetype.main s env).trace.map (·.fn) =
      [.read_file_in_bytes, .stbtt_GetNumberOfFonts, .stbtt_GetFontOffsetForIndex,
       .stbtt_InitFont, .printf] := by
  simp only [stb_truetype.main, if_pos h]
  refine ⟨?_, ?_⟩ <;> first | rfl | trivial

/-- C14 fails on the code: when `read_file_in_bytes` returns null and
`stbtt_GetFontOffsetForIndex` returns -1, `main` has passed the null `font_data` to
`stbtt_GetNumberOfFonts`, `stbtt_GetFontOffsetForIndex` and `stbtt_InitFont`, and the
offset -1 to `stbtt_InitFont`, before the only check it makes, that of the result of
`stbtt_InitFont`. -/
theorem null_font_data_passed_on :
    (stb_truetype.main 12 stb_truetype.unreadable).trace.head?.map (fun c => (c.fn, c.ret)) =
      some (.read_file_in_bytes, .ptr false) ∧
    shape (stb_truetype.main 12 stb_truetype.unreadable).trace =
      [(.read_file_in_bytes, [.str "path/to/font.ttf"]),
       (.stbtt_GetNumberOfFonts, [.var .font_data]),
       (.stbtt_GetFontOffsetForIndex, [.var .font_data, .int 0]),
       (.stbtt_InitFont, [.addr .info, .var .font_data, .int (-1)]),
       (.printf, [.str "ERROR: Could not initialize STB truetype library!\n"])] ∧
    (stb_truetype.main 12 stb_truetype.unreadable).exit = -1 :=
  ⟨rfl, rfl, rfl⟩

/-- Whenever `stbtt_InitFont` succeeds and the queried length `n` is a non-negative
`int`, the buffer for `kern_table` has `sizeof(stbtt_kerningentry) * n` bytes, provided
that product does not wrap around. -/
theorem kern_table_bytes (s : Nat) (env : stb_truetype.Env) (h : env.init_font ≠ 0)
    (hn : 0 ≤ env.kern_table_length) (hint : env.kern_table_length < 2 ^ 31)
    (hs : s * env.kern_table_length.toNat < 2 ^ 64) :
    mallocBytes .kern_table (stb_truetype.main s env).trace =
      some (s * env.kern_table_length.toNat) := by
  have hlt : env.kern_table_length < 2 ^ 64 := lt_trans hint (by norm_num)
  have h2 : toSize env.kern_table_length = env.kern_table_length.toNat := by
    unfold toSize SIZE_BITS
    rw [Int.emod_eq_of_lt hn hlt]
  have h3 : mul64 s (toSize env.kern_table_length) = s * env.kern_table_length.toNat := by
    rw [h2]
    unfold mul64 SIZE_BITS
    exact Nat.mod_eq_of_lt hs
  simp only [stb_truetype.main, if_neg h, h3]
  rfl

/-- C15 fails on the code: with a queried kerning table length of 3 and 12-byte
entries, `main` allocates 36 bytes for `kern_table`, but the call of
`stbtt_GetKerningTable` has two arguments, the font and the buffer: the table length is
not passed. -/
theorem kerning_table_length_not_passed :
    stb_truetype.fixture.kern_table_length = 3 ∧
    mallocBytes .kern_table (stb_truetype.main 12 stb_truetype.fixture).trace = some 36 ∧
    argsOf .stbtt_GetKerningTable (stb_truetype.main 12 stb_truetype.fixture).trace =
      some [.var .info, .var .kern_table] := by
  decide

/-- On the success path of dr_mp3 and dr_wav `main` the one buffer the program
allocates itself, `s32_samples_buffer`, is released once, by `free`. -/
theorem s32_samples_buffer_freed_once (s1 s2 : Nat) (mp3 : dr_mp3.Env) (wav : dr_wav.Env)
    (hmp3 : mp3.init_file ≠ 0 ∧ mp3.samples = true)
    (hwav : wav.init_file ≠ 0 ∧ wav.samples = true) :
    (ownBuffers (dr_mp3.main s1 mp3).trace = [.s32_samples_buffer] ∧
      releasers .s32_samples_buffer (dr_mp3.main s1 mp3).trace = [.free]) ∧
    (ownBuffers (dr_wav.main s2 wav).trace = [.s32_samples_buffer] ∧
      releasers .s32_samples_buffer (dr_wav.main s2 wav).trace = [.free]) := by
  refine ⟨?_, ?_⟩
  · simp only [dr_mp3.main, if_neg hmp3.1, hmp3.2, Bool.true_eq_false, ↓reduceIte]
    exact ⟨rfl, rfl⟩
  · simp only [dr_wav.main, if_neg hwav.1, hwav.2, Bool.true_eq_false, ↓reduceIte]
    exact ⟨rfl, rfl⟩

/-- C16 fails on the code: on a successful run of stb_truetype `main`, which exits
with 0, the buffers the program loads or allocates itself are `font_data`, `out_bitmap`
and `kern_table`; none of them is passed to a release call, and `main` makes no call of
`free` at all. -/
theorem truetype_own_buffers_never_freed :
    (stb_truetype.main 12 stb_truetype.fixture).exit = 0 ∧
    ownBuffers (stb_truetype.main 12 stb_truetype.fixture).trace =
      [.font_data, .out_bitmap, .kern_table] ∧
    releaseCount .font_data (stb_truetype.main 12 stb_truetype.fixture).trace = 0 ∧
    releaseCount .out_bitmap (stb_truetype.main 12 stb_truetype.fixture).trace = 0 ∧
    releaseCount .kern_table (stb_truetype.main 12 stb_truetype.fixture).trace = 0 ∧
    ((stb_truetype.main 12 stb_truetype.fixture).trace.filter
      (fun c => decide (c.fn = .free))).length = 0 := by
  decide

/-- Whenever `stbtt_InitFont` succeeds, the box is measured at the scale pair
(0, `scale_factor`) and the bitmap is made at (`scale_factor`, `scale_factor`). -/
theorem scale_pairs (s : Nat) (env : stb_truetype.Env) (h : env.init_font ≠ 0) :
    boxScale (stb_truetype.main s env).trace = some (0, env.scale_factor) ∧
    makeScale (stb_truetype.main s env).trace =
      some (env.scale_factor, env.scale_factor) := by
  simp only [stb_truetype.main, if_neg h]
  exact ⟨rfl, rfl⟩

/-- C17 fails on the code: with the scale factor 8/75, `stbtt_GetGlyphBitmapBox` is
given the scale pair (0, 8/75) and `stbtt_MakeGlyphBitmap` the pair (8/75, 8/75); the
two pairs differ. -/
theorem box_and_bitmap_scales_differ :
    boxScale (stb_truetype.main 12 stb_truetype.fixture).trace = some (0, mkRat 256 2400) ∧
    makeScale (stb_truetype.main 12 stb_truetype.fixture).trace =
      some (mkRat 256 2400, mkRat 256 2400) ∧
    boxScale (stb_truetype.main 12 stb_truetype.fixture).trace ≠
      makeScale (stb_truetype.main 12 stb_truetype.fixture).trace := by
  decide

/-- When the decode call is reached and returns -1, `main` exits with -1, makes no
release call for `samples`, and the only call that takes `samples` is the decode
itself. -/
theorem decode_minus_one_stops (env : stb_vorbis.Env) (h1 : env.vorbis = true)
    (h2 : env.seek_start = 1) (h3 : env.frames = -1) :
    (stb_vorbis.main env).exit = -1 ∧
    releaseCount .samples (stb_vorbis.main env).trace = 0 ∧
    ((stb_vorbis.main env).trace.filter (fun c => c.mentions .samples)).map (·.fn) =
      [.stb_vorbis_decode_filename] := by
  simp only [stb_vorbis.main, h1, h2, if_pos h3, Bool.true_eq_false, ne_eq,
    not_true_eq_false, ↓reduceIte]
  refine ⟨?_, ?_, ?_⟩ <;> first | rfl | trivial

/-- C18 fails on the code: when `stb_vorbis_decode_filename` returns -2, a negative
value other than -1, `main` prints no error: the call after the decode is the `free` of
`samples`, followed by `stb_vorbis_close`, and `main` exits with 0.  Only the value -1
is tested. -/
theorem decode_minus_two_frees_samples :
    stb_vorbis.decodeMinusTwo.frames < 0 ∧
    (stb_vorbis.main stb_vorbis.decodeMinusTwo).exit = 0 ∧
    (stb_vorbis.main stb_vorbis.decodeMinusTwo).trace.map (·.fn) =
      [.stb_vorbis_open_filename, .stb_vorbis_get_info, .stb_vorbis_seek_start,
       .stb_vorbis_seek_frame, .stb_vorbis_seek, .stb_vorbis_decode_filename, .free,
       .stb_vorbis_close] ∧
    releasers .samples (stb_vorbis.main stb_vorbis.decodeMinusTwo).trace = [.free] ∧
    ¬ stb_vorbis.NegativeFramesRejected stb_vorbis.decodeMinusTwo := by
  refine ⟨by decide, by decide, by decide, by decide, ?_⟩
  intro h
  have h2 := (h (by decide)).1
  revert h2
  decide
